import Mathlib

/-!
Verification of the backend relay `src/api/generate.js` of the
brainrot-generator repository.

The relay is a two-stage orchestration: a text-generation call (stage 1)
whose JSON output is parsed into a structured idea with per-field
fallbacks, followed by an image-generation call (stage 2), both wrapped
in an exponential-backoff retry helper `withRetry`.

The embedding models JavaScript values reachable from JSON (`Json`),
JavaScript truthiness, property access (throwing on `null`/`undefined`),
optional chaining, template-literal stringification, `JSON.parse`, the
retry helper (instrumented with the number of calls issued and the list
of pauses taken), and the HTTP handler itself as a function of the
inbound method, the environment credential, and the outcome of each
outbound fetch attempt.
-/

namespace Relay

/-- JavaScript values producible by `JSON.parse` / `response.json()`.
Numbers are modelled exactly as `mant * 10 ^ exp10` (JSON number
literals all denote finite decimals; IEEE-754 rounding is not modelled,
and the relay never performs numeric comparison or arithmetic — only
truthiness and stringification of numbers are observable). `undefined`
is represented at use sites by `Option Json` with `none` for
`undefined`. -/
inductive Json where
  | null : Json
  | bool (b : Bool) : Json
  | num (mant : Int) (exp10 : Int) : Json
  | str (s : String) : Json
  | arr (elems : List Json) : Json
  | obj (fields : List (String × Json)) : Json

/-- Property lookup on a JavaScript object literal built by `JSON.parse`:
with duplicate keys the later binding wins, as in JavaScript. -/
def lookupField (fs : List (String × Json)) (k : String) : Option Json :=
  fs.foldl (fun acc p => if p.1 = k then some p.2 else acc) none

/-- Optional-chaining member access `v?.k` (and plain access on a value
already known non-null): `undefined`/`null` short-circuit to `undefined`;
objects look the key up; primitives and arrays have none of the accessed
keys, hence `undefined`. Never throws. -/
def optField (v : Option Json) (k : String) : Option Json :=
  match v with
  | some (Json.obj fs) => lookupField fs k
  | _ => none

/-- Optional-chaining index access `v?.[i]`: arrays index positionally,
objects coerce the index to a string key, strings yield one-character
strings, everything else (and out-of-range) yields `undefined`. -/
def optIndex (v : Option Json) (i : Nat) : Option Json :=
  match v with
  | some (Json.arr xs) => xs[i]?
  | some (Json.obj fs) => lookupField fs (toString i)
  | some (Json.str s) => (s.toList[i]?).map (fun c => Json.str (String.mk [c]))
  | _ => none

/-- Message of the TypeError raised by property access on `undefined` or
`null`; the engine-specific wording is abstracted by a fixed string (no
claim depends on its exact text). -/
def typeErrorMsg : String := "Cannot read properties of undefined or null"

/-- Plain (non-optional) member access `v.k`, which throws a TypeError
when `v` is `undefined` or `null`. -/
def jsGet (v : Option Json) (k : String) : Except String (Option Json) :=
  match v with
  | none => Except.error typeErrorMsg
  | some Json.null => Except.error typeErrorMsg
  | some j => Except.ok (optField (some j) k)

/-- JavaScript truthiness of a value (`none` is `undefined`). Falsy:
`undefined`, `null`, `false`, `0`, the empty string. Objects and arrays
are always truthy. (`NaN` does not arise in the model.) -/
def jsTruthy (v : Option Json) : Bool :=
  match v with
  | none => false
  | some Json.null => false
  | some (Json.bool b) => b
  | some (Json.num mant _) => decide (mant ≠ 0)
  | some (Json.str s) => decide (s ≠ "")
  | some (Json.arr _) => true
  | some (Json.obj _) => true

/-- The JavaScript idiom `v || d`: keep `v` when truthy, else `d`. -/
def jsOr (v : Option Json) (d : Json) : Json :=
  if jsTruthy v then v.getD d else d

/-- Strip the trailing zero digits of a fraction part. -/
def stripTrailingZeros (ds : List Char) : List Char :=
  (ds.reverse.dropWhile (fun c => c = '0')).reverse

/-- Decimal rendering of `mant * 10 ^ exp10`, modelling JavaScript
number stringification for the finite decimals the parser produces
(exponential notation for extreme magnitudes is not modelled; no number
ever reaches a string in the relay paths the claims exercise). -/
def numToJsString (mant exp10 : Int) : String :=
  if mant = 0 then "0"
  else
    let sign := if mant < 0 then "-" else ""
    let digits := (toString mant.natAbs).toList
    if 0 ≤ exp10 then
      sign ++ String.mk digits ++ String.mk (List.replicate exp10.toNat '0')
    else
      let k := (-exp10).toNat
      let padded :=
        if digits.length ≤ k then List.replicate (k + 1 - digits.length) '0' ++ digits
        else digits
      let ipart := padded.take (padded.length - k)
      let fpart := stripTrailingZeros (padded.drop (padded.length - k))
      if fpart.isEmpty then sign ++ String.mk ipart
      else sign ++ String.mk ipart ++ "." ++ String.mk fpart

mutual

/-- JavaScript `String(v)` / template-literal stringification of a
(non-`undefined`) value. -/
def jsToString : Json → String
  | Json.null => "null"
  | Json.bool true => "true"
  | Json.bool false => "false"
  | Json.num mant exp10 => numToJsString mant exp10
  | Json.str s => s
  | Json.arr xs => jsArrToString xs
  | Json.obj _ => "[object Object]"

/-- `Array.prototype.toString`: elements joined by commas, with `null`
elements rendered as the empty string. -/
def jsArrToString : List Json → String
  | [] => ""
  | [j] =>
    match j with
    | Json.null => ""
    | j => jsToString j
  | j :: rest =>
    (match j with
     | Json.null => ""
     | j => jsToString j) ++ "," ++ jsArrToString rest

end

/-- Template-literal stringification including `undefined`. -/
def jsTemplate (v : Option Json) : String :=
  match v with
  | none => "undefined"
  | some j => jsToString j

/-! ## A JSON parser modelling `JSON.parse`

Executable, fuel-based. Follows the JSON grammar: whitespace, `null`,
`true`, `false`, strings with the standard escapes, numbers with
optional minus, no leading zeros, optional fraction and exponent, arrays
and objects. Numbers are kept exactly as mantissa and power-of-ten
exponent. -/

/-- JSON insignificant whitespace. -/
def isJsonWs (c : Char) : Bool :=
  c = ' ' || c = '\t' || c = '\n' || c = '\r'

/-- Drop leading JSON whitespace. -/
def skipWs : List Char → List Char
  | [] => []
  | c :: cs => if isJsonWs c then skipWs cs else c :: cs

/-- Numeric value of a hexadecimal digit. -/
def hexVal (c : Char) : Option Nat :=
  if '0' ≤ c ∧ c ≤ '9' then some (c.toNat - 48)
  else if 'a' ≤ c ∧ c ≤ 'f' then some (c.toNat - 87)
  else if 'A' ≤ c ∧ c ≤ 'F' then some (c.toNat - 55)
  else none

/-- Characters of a JSON string body after the opening quote, handling
escapes; returns the decoded characters and the input after the closing
quote. -/
def parseStrChars : Nat → List Char → Option (List Char × List Char)
  | 0, _ => none
  | _, [] => none
  | fuel + 1, c :: cs =>
    if c = '"' then some ([], cs)
    else if c = '\\' then
      match cs with
      | [] => none
      | e :: cs2 =>
        if e = '"' ∨ e = '\\' ∨ e = '/' then
          (parseStrChars fuel cs2).map (fun p => (e :: p.1, p.2))
        else if e = 'b' then
          (parseStrChars fuel cs2).map (fun p => (Char.ofNat 8 :: p.1, p.2))
        else if e = 'f' then
          (parseStrChars fuel cs2).map (fun p => (Char.ofNat 12 :: p.1, p.2))
        else if e = 'n' then
          (parseStrChars fuel cs2).map (fun p => ('\n' :: p.1, p.2))
        else if e = 'r' then
          (parseStrChars fuel cs2).map (fun p => ('\r' :: p.1, p.2))
        else if e = 't' then
          (parseStrChars fuel cs2).map (fun p => ('\t' :: p.1, p.2))
        else if e = 'u' then
          match cs2 with
          | h1 :: h2 :: h3 :: h4 :: cs3 =>
            match hexVal h1, hexVal h2, hexVal h3, hexVal h4 with
            | some v1, some v2, some v3, some v4 =>
              (parseStrChars fuel cs3).map
                (fun p => (Char.ofNat (((v1 * 16 + v2) * 16 + v3) * 16 + v4) :: p.1, p.2))
            | _, _, _, _ => none
          | _ => none
        else none
    else if c.toNat < 32 then none
    else (parseStrChars fuel cs).map (fun p => (c :: p.1, p.2))

/-- Longest prefix of decimal digits and the rest of the input. -/
def takeDigits : List Char → List Char × List Char
  | [] => ([], [])
  | c :: cs =>
    if c.isDigit then
      let p := takeDigits cs
      (c :: p.1, p.2)
    else ([], c :: cs)

/-- Natural number denoted by a digit string. -/
def digitsToNat (ds : List Char) : Nat :=
  ds.foldl (fun a c => a * 10 + (c.toNat - 48)) 0

/-- Parse a JSON number starting at the given input (which is known to
start with a minus sign or digit); returns its exact value as a
mantissa and a power-of-ten exponent. -/
def parseNumber (cs : List Char) : Option ((Int × Int) × List Char) :=
  let signAndRest : Bool × List Char :=
    match cs with
    | '-' :: r => (true, r)
    | _ => (false, cs)
  let neg := signAndRest.1
  let cs1 := signAndRest.2
  match cs1 with
  | [] => none
  | c :: _ =>
    if ¬ c.isDigit then none
    else
      let ipr := takeDigits cs1
      -- JSON forbids leading zeros: the integer part is "0" or starts 1-9
      if ipr.1.length > 1 ∧ ipr.1.head? = some '0' then none
      else
        let intPart := digitsToNat ipr.1
        let afterInt := ipr.2
        let fracStep : Option (Nat × Nat × List Char) :=
          match afterInt with
          | '.' :: r =>
            let fp := takeDigits r
            if fp.1.isEmpty then none
            else some (digitsToNat fp.1, fp.1.length, fp.2)
          | _ => some (0, 0, afterInt)
        match fracStep with
        | none => none
        | some (fracVal, fracLen, afterFrac) =>
          let expStep : Option (Int × List Char) :=
            match afterFrac with
            | e :: r =>
              if e = 'e' ∨ e = 'E' then
                let se : Bool × List Char :=
                  match r with
                  | '+' :: r2 => (false, r2)
                  | '-' :: r2 => (true, r2)
                  | _ => (false, r)
                let ep := takeDigits se.2
                if ep.1.isEmpty then none
                else
                  some (if se.1 then -(digitsToNat ep.1 : Int) else (digitsToNat ep.1 : Int), ep.2)
              else some (0, afterFrac)
            | [] => some (0, afterFrac)
          match expStep with
          | none => none
          | some (expVal, rest) =>
            let mant : Int :=
              (if neg then -1 else 1) * ((intPart * 10 ^ fracLen + fracVal : Nat) : Int)
            some ((mant, expVal - (fracLen : Int)), rest)

mutual

/-- Parse one JSON value at the head of the input (no leading
whitespace); returns the value and the remaining input. -/
def parseVal : Nat → List Char → Option (Json × List Char)
  | 0, _ => none
  | fuel + 1, cs =>
    match cs with
    | 'n' :: 'u' :: 'l' :: 'l' :: rest => some (Json.null, rest)
    | 't' :: 'r' :: 'u' :: 'e' :: rest => some (Json.bool true, rest)
    | 'f' :: 'a' :: 'l' :: 's' :: 'e' :: rest => some (Json.bool false, rest)
    | '"' :: rest =>
      (parseStrChars (rest.length + 1) rest).map (fun p => (Json.str (String.mk p.1), p.2))
    | '[' :: rest =>
      (match skipWs rest with
       | ']' :: rest2 => some (Json.arr [], rest2)
       | other => (parseArrItems fuel other).map (fun p => (Json.arr p.1, p.2)))
    | '\x7b' :: rest =>
      (match skipWs rest with
       | '\x7d' :: rest2 => some (Json.obj [], rest2)
       | other => (parseObjItems fuel other).map (fun p => (Json.obj p.1, p.2)))
    | c :: _ =>
      if c = '-' ∨ c.isDigit then
        (parseNumber cs).map (fun p => (Json.num p.1.1 p.1.2, p.2))
      else none
    | [] => none

/-- Parse the comma-separated items of a non-empty JSON array, up to and
including the closing bracket. -/
def parseArrItems : Nat → List Char → Option (List Json × List Char)
  | 0, _ => none
  | fuel + 1, cs =>
    match parseVal fuel cs with
    | none => none
    | some (v, rest) =>
      match skipWs rest with
      | ',' :: rest2 =>
        (parseArrItems fuel (skipWs rest2)).map (fun p => (v :: p.1, p.2))
      | ']' :: rest2 => some ([v], rest2)
      | _ => none

/-- Parse the comma-separated members of a non-empty JSON object, up to
and including the closing brace. -/
def parseObjItems : Nat → List Char → Option (List (String × Json) × List Char)
  | 0, _ => none
  | fuel + 1, cs =>
    match cs with
    | '"' :: rest =>
      (match parseStrChars (rest.length + 1) rest with
       | none => none
       | some (kcs, rest2) =>
         match skipWs rest2 with
         | ':' :: rest3 =>
           (match parseVal fuel (skipWs rest3) with
            | none => none
            | some (v, rest4) =>
              match skipWs rest4 with
              | ',' :: rest5 =>
                (parseObjItems fuel (skipWs rest5)).map
                  (fun p => ((String.mk kcs, v) :: p.1, p.2))
              | '\x7d' :: rest5 => some ([(String.mk kcs, v)], rest5)
              | _ => none)
         | _ => none)
    | _ => none

end

/-- `JSON.parse` on a string: parse one value surrounded by optional
whitespace, requiring the whole input to be consumed. -/
def parseJson (s : String) : Option Json :=
  match parseVal (2 * s.length + 4) (skipWs s.toList) with
  | some (j, rest) => if (skipWs rest).isEmpty then some j else none
  | none => none

end Relay

namespace Relay

/-! ## The retry helper

`withRetry` in `src/api/generate.js`:

    const withRetry = async (fn, maxRetries = 3, delay = 1000) => \x7b
      for (let i = 0; i < maxRetries; i++) \x7b
        try \x7b
          return await fn();
        \x7d catch (error) \x7b
          if (i === maxRetries - 1) throw error;
          await new Promise(resolve => setTimeout(resolve, delay * Math.pow(2, i)));
        \x7d
      \x7d
    \x7d;

The i-th invocation outcome is supplied by `fn : Nat → Except ε α`.
The model is instrumented: it records the number of invocations issued
and the list of pauses taken (in milliseconds, in order). Falling out
of the loop without returning (only possible when `maxRetries ≤ 0` for
integral `maxRetries`) resolves with `undefined`, modelled as
`Except.ok none`. -/

/-- Outcome of a `withRetry` execution: the settled value (`ok none`
models resolving with `undefined`), the number of times the wrapped
operation was invoked, and the pauses taken between attempts. -/
structure RetryTrace (ε α : Type) where
  result : Except ε (Option α)
  calls : Nat
  delays : List Nat

/-- The retry loop from iteration `i`, with `rem` iterations remaining.
For integral `maxRetries` the JavaScript loop runs `i` from `0` while
`i < maxRetries`, i.e. exactly `max maxRetries 0` iterations, which the
caller `withRetry` passes as the initial `rem`; the `i === maxRetries - 1`
last-attempt test is kept verbatim on the iteration counter. -/
def withRetryGo {ε α : Type} (fn : Nat → Except ε α) (maxRetries : Int) (delay : Nat) :
    Nat → Nat → RetryTrace ε α
  | 0, _ => ⟨Except.ok none, 0, []⟩
  | rem + 1, i =>
    match fn i with
    | Except.ok a => ⟨Except.ok (some a), 1, []⟩
    | Except.error e =>
      if (i : Int) = maxRetries - 1 then ⟨Except.error e, 1, []⟩
      else
        let rest := withRetryGo fn maxRetries delay rem (i + 1)
        ⟨rest.result, rest.calls + 1, delay * 2 ^ i :: rest.delays⟩

/-- `withRetry fn maxRetries delay` (the JavaScript defaults are
`maxRetries = 3`, `delay = 1000`; call sites in the handler pass the
defaults explicitly here). -/
def withRetry {ε α : Type} (fn : Nat → Except ε α) (maxRetries : Int) (delay : Nat) :
    RetryTrace ε α :=
  withRetryGo fn maxRetries delay maxRetries.toNat 0

/-! ## The handler

`handler` in `src/api/generate.js`. Outbound fetches are modelled by
their per-attempt outcomes: `Except.error msg` is a rejected fetch (a
network-level failure; its message is carried), `Except.ok resp` is a
resolved fetch carrying the HTTP success flag `resp.ok` and the outcome
`resp.body` of `response.json()` (an `Except.error` there models a body
that fails to parse as JSON and rejects). The inbound request body is
opaque passthrough (forwarded verbatim to stage 1) and does not appear.
The model is instrumented with the number of fetch invocations per
stage and the prompt string sent to stage 2, when reached. -/

/-- A resolved `fetch` response: the HTTP success flag `ok` and the
outcome of `response.json()`. -/
structure FetchResp where
  ok : Bool
  body : Except String Json

/-- Body of the relay's inbound HTTP response. `name` and `translation`
are arbitrary JavaScript values (they are whatever stage 1 produced,
serialized by `res.json`); `imageUrl` is always a string (a template
literal). -/
inductive ResBody where
  | err (msg : String) : ResBody
  | ok (name : Json) (translation : Json) (imageUrl : String) : ResBody

/-- Observable outcome of one handler invocation: HTTP status and body
sent inbound, number of stage-1 and stage-2 fetch invocations issued,
and the stage-2 prompt when stage 2 was reached. -/
structure HandlerResult where
  status : Nat
  body : ResBody
  geminiCalls : Nat
  imagenCalls : Nat
  imagenPrompt : Option String

/-- The outer catch: `res.status(500).json(\x7b error: e.message || 'An
internal server error occurred.' \x7d)`. -/
def errResp (msg : String) (g i : Nat) (p : Option String) : HandlerResult :=
  ⟨500, ResBody.err (if msg = "" then "An internal server error occurred." else msg), g, i, p⟩

/-- The thrown message for a non-success upstream status:
`new Error(\x60... API Error: $\x7berr.error.message\x7d\x60)` — or the TypeError
from `err.error.message` itself when `err.error` is absent. Both throws
land in the same outer catch, so only the message is observable. -/
def upstreamFailMsg (pre : String) (b : Json) : String :=
  match jsGet (some b) "error" with
  | Except.error e => e
  | Except.ok v =>
    match jsGet v "message" with
    | Except.error e => e
    | Except.ok mv => pre ++ jsTemplate mv

/-- `geminiResult.candidates?.[0]?.content?.parts?.[0]?.text`. The
first access is plain (it throws on a `null` body); the rest of the
chain is optional. -/
def geminiJsonText (b : Json) : Except String (Option Json) :=
  match jsGet (some b) "candidates" with
  | Except.error e => Except.error e
  | Except.ok c =>
    Except.ok (optField (optIndex (optField (optField (optIndex c 0) "content") "parts") 0) "text")

/-- `JSON.parse(jsonText)` where `jsonText` is an arbitrary JavaScript
value: `JSON.parse` coerces its argument to a string first (so
`undefined` becomes the unparseable text `"undefined"`). The SyntaxError
message is abstracted by a fixed string (it is swallowed by the inner
catch and never observable). -/
def jsonParseJs (v : Option Json) : Except String Json :=
  match parseJson (jsTemplate v) with
  | some j => Except.ok j
  | none => Except.error "Unexpected token in JSON"

/-- Stage-1 text extraction and parse, as guarded by the inner
`try`: any throw inside (a `null` response body, or an unparseable
text) is an `Except.error` here and leads to the fallback values. -/
def stage1Parse (b : Json) : Except String Json :=
  match geminiJsonText b with
  | Except.error e => Except.error e
  | Except.ok t => jsonParseJs t

/-- Fallback `generatedName`. -/
def fallbackName : String := "Il Creato Senza Nome"

/-- Fallback `generatedTranslation`. -/
def fallbackTranslation : String := "The Unnamed Creation"

/-- Fallback `finalImagePrompt`. -/
def fallbackImagePrompt : String :=
  "A surreal hybrid creature, vibrant colors, baroque illustration, octane render."

/-- The `(generatedName, generatedTranslation, finalImagePrompt)` triple
after the stage-1 `try/catch`: on any throw inside the `try` all three
fallbacks are kept; on a successful parse each field is kept exactly
when the parsed field is truthy (`parsedJson.italianName || ...`).
A parse result of `null` throws on property access inside the `try`,
yielding the same all-fallback triple as `optField` returning
`undefined` does, so no separate case is needed. -/
def stage1Fields (b : Json) : Json × Json × Json :=
  match stage1Parse b with
  | Except.error _ => (Json.str fallbackName, Json.str fallbackTranslation, Json.str fallbackImagePrompt)
  | Except.ok p =>
    (jsOr (optField (some p) "italianName") (Json.str fallbackName),
     jsOr (optField (some p) "englishTranslation") (Json.str fallbackTranslation),
     jsOr (optField (some p) "imagePrompt") (Json.str fallbackImagePrompt))

/-- `imagenResult.predictions?.[0]?.bytesBase64Encoded` (plain first
access, optional rest). -/
def imageBytes (b : Json) : Except String (Option Json) :=
  match jsGet (some b) "predictions" with
  | Except.error e => Except.error e
  | Except.ok p => Except.ok (optField (optIndex p 0) "bytesBase64Encoded")

/-- Stage 2 and the final response, given the stage-1 call count and
the stage-1 triple: build the Imagen prompt from `finalImagePrompt`,
issue the image fetch under retry, check the HTTP flag, extract the
base64 payload, and either respond 200 with the fusion result or throw
(landing in the outer catch). -/
def afterStage1 (gCalls : Nat) (nm tr fp : Json)
    (imFetch : Nat → Except String FetchResp) : HandlerResult :=
  let prompt := "Highly cinematic, detailed, and artistic illustration of: " ++ jsToString fp ++
    ". Baroque style, golden ratio, dramatic lighting."
  let im := withRetry imFetch 3 1000
  match im.result with
  | Except.error e => errResp e gCalls im.calls (some prompt)
  | Except.ok none => errResp typeErrorMsg gCalls im.calls (some prompt)
  | Except.ok (some resp) =>
    if resp.ok then
      match resp.body with
      | Except.error e => errResp e gCalls im.calls (some prompt)
      | Except.ok ibody =>
        match imageBytes ibody with
        | Except.error e => errResp e gCalls im.calls (some prompt)
        | Except.ok bopt =>
          if jsTruthy bopt then
            ⟨200, ResBody.ok nm tr ("data:image/png;base64," ++ jsTemplate bopt),
             gCalls, im.calls, some prompt⟩
          else
            errResp "Image generation failed to return data." gCalls im.calls (some prompt)
    else
      match resp.body with
      | Except.error e => errResp e gCalls im.calls (some prompt)
      | Except.ok errBody =>
        errResp (upstreamFailMsg "Imagen API Error: " errBody) gCalls im.calls (some prompt)

/-- The body of the handler past the method and credential gates:
stage 1 under retry with the HTTP flag checked outside the retried
closure, the stage-1 `try/catch` fallback parse, then stage 2 via
`afterStage1`. -/
def handlerCore (gFetch imFetch : Nat → Except String FetchResp) : HandlerResult :=
    let g := withRetry gFetch 3 1000
    match g.result with
    | Except.error e => errResp e g.calls 0 none
    | Except.ok none => errResp typeErrorMsg g.calls 0 none
    | Except.ok (some resp) =>
      if resp.ok then
        match resp.body with
        | Except.error e => errResp e g.calls 0 none
        | Except.ok gbody =>
          let f := stage1Fields gbody
          afterStage1 g.calls f.1 f.2.1 f.2.2 imFetch
      else
        match resp.body with
        | Except.error e => errResp e g.calls 0 none
        | Except.ok errBody =>
          errResp (upstreamFailMsg "Gemini API Error: " errBody) g.calls 0 none

/-- The handler: method gate, credential gate (`!API_KEY` is truthy for
a missing or empty environment variable), then `handlerCore`.
`gFetch`/`imFetch` give the outcome of each outbound fetch attempt. -/
def handler (method : String) (apiKey : Option String)
    (gFetch imFetch : Nat → Except String FetchResp) : HandlerResult :=
  if method ≠ "POST" then ⟨405, ResBody.err "Method Not Allowed", 0, 0, none⟩
  else if apiKey = none ∨ apiKey = some "" then
    ⟨500, ResBody.err "API key not configured.", 0, 0, none⟩
  else handlerCore gFetch imFetch

end Relay

namespace Relay

/-- Unrolling lemma: a success on the first remaining attempt returns
immediately with one call and no pause. -/
theorem withRetryGo_first_ok {ε α : Type} (fn : Nat → Except ε α) (a : α)
    (maxRetries : Int) (delay : Nat) (rem i : Nat) (h : fn i = Except.ok a) :
    withRetryGo fn maxRetries delay (rem + 1) i = ⟨Except.ok (some a), 1, []⟩ := by
  simp [withRetryGo, h]

/-- With the default cap 3, a first-attempt success settles `withRetry`
after exactly one call. -/
theorem withRetry_first_ok {ε α : Type} (fn : Nat → Except ε α) (a : α)
    (delay : Nat) (h : fn 0 = Except.ok a) :
    withRetry fn 3 delay = ⟨Except.ok (some a), 1, []⟩ :=
  withRetryGo_first_ok fn a 3 delay 2 0 h

/-- Generalized success lemma for the retry loop: starting at iteration
`i` with `rem` iterations remaining (`rem + i` equal to the total
iteration count), `k < rem` failures followed by a success yield the
successful value after `k + 1` calls with pauses
`delay * 2 ^ i, ..., delay * 2 ^ (i + k - 1)`. -/
theorem withRetryGo_ok_after {ε α : Type} (fn : Nat → Except ε α) (e : Nat → ε) (a : α)
    (maxRetries : Int) (delay : Nat) :
    ∀ (k i rem : Nat), rem + i = maxRetries.toNat → 0 < maxRetries →
      (∀ t, t < k → fn (i + t) = Except.error (e (i + t))) →
      fn (i + k) = Except.ok a → k < rem →
      withRetryGo fn maxRetries delay rem i =
        ⟨Except.ok (some a), k + 1, (List.range k).map (fun t => delay * 2 ^ (i + t))⟩ := by
  intro k
  induction k with
  | zero =>
    intro i rem _hinv _hpos _hf hok hlt
    obtain ⟨r, rfl⟩ : ∃ r, rem = r + 1 := ⟨rem - 1, by omega⟩
    simp [withRetryGo, show fn i = Except.ok a from by simpa using hok]
  | succ k ih =>
    intro i rem hinv hpos hf hok hlt
    obtain ⟨r, rfl⟩ : ∃ r, rem = r + 1 := ⟨rem - 1, by omega⟩
    have hfi : fn i = Except.error (e i) := by simpa using hf 0 (Nat.succ_pos k)
    have hne : ¬ ((i : Int) = maxRetries - 1) := by omega
    have ih2 := ih (i + 1) r (by omega) hpos
      (fun t ht => by
        have h2 := hf (t + 1) (by omega)
        rwa [show i + (t + 1) = i + 1 + t from by omega] at h2)
      (by rwa [show i + 1 + k = i + (k + 1) from by omega]) (by omega)
    have hdel : delay * 2 ^ i :: (List.range k).map (fun t => delay * 2 ^ (i + 1 + t))
        = (List.range (k + 1)).map (fun t => delay * 2 ^ (i + t)) := by
      rw [List.range_succ_eq_map, List.map_cons, List.map_map]
      refine congrArg₂ _ (by rw [Nat.add_zero]) ?_
      apply List.map_congr_left
      intro t _
      show delay * 2 ^ (i + 1 + t) = delay * 2 ^ (i + (t + 1))
      rw [show i + 1 + t = i + (t + 1) from by omega]
    simp only [withRetryGo, hfi, if_neg hne, ih2]
    rw [← hdel]

end Relay

namespace Relay

/-- Generalized exhaustion lemma for the retry loop: starting at
iteration `i` with `m + 1` iterations remaining, if every attempt
fails, the final attempt's error is propagated after exactly `m + 1`
calls with pauses `delay * 2 ^ i, ..., delay * 2 ^ (i + m - 1)`. -/
theorem withRetryGo_exhaust {ε α : Type} (fn : Nat → Except ε α) (e : Nat → ε)
    (maxRetries : Int) (delay : Nat) :
    ∀ (m i : Nat), (m + 1) + i = maxRetries.toNat → 0 < maxRetries →
      (∀ t : Nat, (t : Int) < maxRetries → fn t = Except.error (e t)) →
      withRetryGo fn maxRetries delay (m + 1) i =
        ⟨Except.error (e (maxRetries.toNat - 1)), m + 1,
         (List.range m).map (fun t => delay * 2 ^ (i + t))⟩ := by
  intro m
  induction m with
  | zero =>
    intro i hinv hpos hf
    have hfi : fn i = Except.error (e i) := hf i (by omega)
    have hlast : (i : Int) = maxRetries - 1 := by omega
    have hi : i = maxRetries.toNat - 1 := by omega
    subst hi
    simp [withRetryGo, hfi, if_pos hlast]
  | succ m ih =>
    intro i hinv hpos hf
    have hfi : fn i = Except.error (e i) := hf i (by omega)
    have hne : ¬ ((i : Int) = maxRetries - 1) := by omega
    have ih2 := ih (i + 1) (by omega) hpos hf
    have hdel : delay * 2 ^ i :: (List.range m).map (fun t => delay * 2 ^ (i + 1 + t))
        = (List.range (m + 1)).map (fun t => delay * 2 ^ (i + t)) := by
      rw [List.range_succ_eq_map, List.map_cons, List.map_map]
      refine congrArg₂ _ (by rw [Nat.add_zero]) ?_
      apply List.map_congr_left
      intro t _
      show delay * 2 ^ (i + 1 + t) = delay * 2 ^ (i + (t + 1))
      rw [show i + 1 + t = i + (t + 1) from by omega]
    obtain ⟨r, hr⟩ : ∃ r, m + 1 = r := ⟨m + 1, rfl⟩
    rw [hr] at ih2
    rw [show m + 1 + 1 = r + 1 from by omega]
    simp only [withRetryGo, hfi, if_neg hne, ih2]
    rw [← hdel, ← hr]

/-- Claim C3: a wrapped operation that fails exactly `k` times and then
succeeds, with `k < maxRetries`, makes `withRetry` return the
successful result, having invoked the operation exactly `k + 1` times,
with a pause of `delay * 2 ^ i` after the `i`-th failed attempt
(zero-based), i.e. pauses `delay * 2 ^ 0, ..., delay * 2 ^ (k - 1)`. -/
theorem withRetry_succeeds_after_failures {ε α : Type} (fn : Nat → Except ε α)
    (e : Nat → ε) (a : α) (k : Nat) (maxRetries : Int) (delay : Nat)
    (hk : (k : Int) < maxRetries)
    (hf : ∀ i, i < k → fn i = Except.error (e i))
    (hok : fn k = Except.ok a) :
    withRetry fn maxRetries delay =
      ⟨Except.ok (some a), k + 1, (List.range k).map (fun i => delay * 2 ^ i)⟩ := by
  have hpos : 0 < maxRetries := by omega
  have h := withRetryGo_ok_after fn e a maxRetries delay k 0 maxRetries.toNat
    (by omega) hpos (fun t ht => by simpa using hf t ht) (by simpa using hok) (by omega)
  simpa [withRetry] using h

/-- Witness for C3: with the default cap 3 and base delay 1000, two
failures then a success settle to the success after three calls with
pauses 1000 ms and 2000 ms. -/
theorem withRetry_succeeds_after_failures_witness :
    withRetry (fun n => if n = 2 then (Except.ok 7 : Except String Nat) else Except.error "fail")
      3 1000 = ⟨Except.ok (some 7), 3, [1000, 2000]⟩ :=
  (withRetry_succeeds_after_failures
    (fun n => if n = 2 then (Except.ok 7 : Except String Nat) else Except.error "fail")
    (fun _ => "fail") 7 2 3 1000 (by decide)
    (fun i hi => by interval_cases i <;> rfl) rfl).trans (by rfl)

/-- Claim C4: a wrapped operation that fails on every attempt makes
`withRetry` invoke it exactly `maxRetries` times and then propagate the
final attempt's error to the caller. -/
theorem withRetry_exhausts_attempts {ε α : Type} (fn : Nat → Except ε α) (e : Nat → ε)
    (maxRetries : Int) (delay : Nat) (hpos : 0 < maxRetries)
    (hf : ∀ i : Nat, (i : Int) < maxRetries → fn i = Except.error (e i)) :
    withRetry fn maxRetries delay =
      ⟨Except.error (e (maxRetries.toNat - 1)), maxRetries.toNat,
       (List.range (maxRetries.toNat - 1)).map (fun i => delay * 2 ^ i)⟩ := by
  obtain ⟨m, hm⟩ : ∃ m, maxRetries.toNat = m + 1 := ⟨maxRetries.toNat - 1, by omega⟩
  have h := withRetryGo_exhaust fn e maxRetries delay m 0 (by omega) hpos hf
  rw [withRetry, hm, h]
  simp [hm]

/-- Witness for C4: with the default cap 3, an always-failing operation
is invoked three times and its error propagates. -/
theorem withRetry_exhausts_attempts_witness :
    withRetry (fun _ => (Except.error "boom" : Except String Nat)) 3 1000 =
      ⟨Except.error "boom", 3, [1000, 2000]⟩ :=
  (withRetry_exhausts_attempts (fun _ => (Except.error "boom" : Except String Nat))
    (fun _ => "boom") 3 1000 (by decide) (fun _ _ => rfl)).trans (by rfl)

/-- Claim C9: for a non-positive attempt cap the loop body never runs:
`withRetry` resolves with `undefined` after zero invocations. -/
theorem withRetry_nonpositive_skips {ε α : Type} (fn : Nat → Except ε α)
    (maxRetries : Int) (delay : Nat) (h : maxRetries ≤ 0) :
    withRetry fn maxRetries delay = ⟨Except.ok none, 0, []⟩ := by
  rw [withRetry, show maxRetries.toNat = 0 from by omega]
  rfl

/-- Witness for C9 at `maxRetries = -2`: the operation is never
invoked and the call resolves with `undefined`. -/
theorem withRetry_nonpositive_skips_witness :
    withRetry (fun _ => (Except.error "x" : Except String Nat)) (-2) 5 =
      ⟨Except.ok none, 0, []⟩ :=
  withRetry_nonpositive_skips (fun _ => (Except.error "x" : Except String Nat)) (-2) 5 (by decide)

end Relay

namespace Relay

/-- A Gemini 2xx body whose first candidate's first part carries the
given text. -/
def geminiBodyWithText (text : String) : Json :=
  Json.obj [("candidates", Json.arr [Json.obj [("content", Json.obj [("parts",
    Json.arr [Json.obj [("text", Json.str text)]])])]])]

/-- An Imagen 2xx response body carrying one prediction with payload
`"AAAA"`. -/
def demoImagenBody : Json :=
  Json.obj [("predictions", Json.arr [Json.obj [("bytesBase64Encoded", Json.str "AAAA")]])]

/-- An Imagen fetch that always resolves 2xx with `demoImagenBody`. -/
def demoImagenFetch : Nat → Except String FetchResp :=
  fun _ => Except.ok ⟨true, Except.ok demoImagenBody⟩

/-- A Gemini fetch that always resolves 2xx with an empty-object body
(so the text part is absent). -/
def emptyGeminiFetch : Nat → Except String FetchResp :=
  fun _ => Except.ok ⟨true, Except.ok (Json.obj [])⟩

/-- A Gemini fetch that always resolves with a non-success status and
an upstream error body carrying the message "boom". -/
def nonOkGeminiFetch : Nat → Except String FetchResp :=
  fun _ => Except.ok ⟨false,
    Except.ok (Json.obj [("error", Json.obj [("message", Json.str "boom")])])⟩

/-- Gate lemma: a POST with a non-empty credential reaches the core. -/
theorem handler_post_with_key (key : String) (hkey : key ≠ "")
    (gFetch imFetch : Nat → Except String FetchResp) :
    handler "POST" (some key) gFetch imFetch = handlerCore gFetch imFetch := by
  unfold handler
  rw [if_neg (by decide), if_neg (by simp [hkey])]

/-- Claim C7: with the API credential absent from the environment, a
POST returns the configuration error and issues zero outbound fetches
to either endpoint. -/
theorem missingKey_config_error (gFetch imFetch : Nat → Except String FetchResp) :
    handler "POST" none gFetch imFetch =
      ⟨500, ResBody.err "API key not configured.", 0, 0, none⟩ := rfl

/-- Claim C5: with stage 1 returning the given valid JSON idea and
stage 2 returning one prediction with payload "AAAA", the relay
responds 200 with exactly that name, translation and data URI (after
one fetch per stage). -/
theorem happyPath_result :
    handler "POST" (some "key")
      (fun _ => Except.ok ⟨true, Except.ok (geminiBodyWithText
        "\x7b\"italianName\":\"Gattociclo\",\"englishTranslation\":\"Cat-cycle\",\"imagePrompt\":\"a bicycle with a cat\x27s head\"\x7d")⟩)
      demoImagenFetch =
      ⟨200, ResBody.ok (Json.str "Gattociclo") (Json.str "Cat-cycle") "data:image/png;base64,AAAA",
       1, 1,
       some "Highly cinematic, detailed, and artistic illustration of: a bicycle with a cat\x27s head. Baroque style, golden ratio, dramatic lighting."⟩ := rfl

/-- Counterexample to claim C1: with every stage-1 attempt resolving to
a non-success HTTP status, the handler issues exactly one stage-1 fetch
— not the retry cap of three — before surfacing the upstream message.
The non-2xx outcome is therefore not re-attempted. -/
theorem geminiNonOk_single_call_cex :
    (handler "POST" (some "key") nonOkGeminiFetch demoImagenFetch).geminiCalls = 1 ∧
    (handler "POST" (some "key") nonOkGeminiFetch demoImagenFetch).geminiCalls ≠ 3 ∧
    (handler "POST" (some "key") nonOkGeminiFetch demoImagenFetch).body =
      ResBody.err "Gemini API Error: boom" :=
  ⟨rfl, by decide, rfl⟩

/-- Claim C1 (amended): a non-success stage-1 HTTP status is converted
to a `RelayError` carrying the upstream error message, but it is NOT
subject to the retry policy: the status check sits outside the closure
wrapped by `withRetry`, and a resolved non-2xx response counts as a
success of the wrapped fetch, so the loop ends after a single call and
the error surfaces to the caller immediately (one stage-1 fetch, zero
stage-2 fetches). Only rejected fetches are retried. -/
theorem geminiNonOk_not_retried (key : String) (hkey : key ≠ "")
    (gFetch imFetch : Nat → Except String FetchResp) (resp : FetchResp) (b : Json)
    (h0 : gFetch 0 = Except.ok resp) (hok : resp.ok = false)
    (hb : resp.body = Except.ok b) :
    handler "POST" (some key) gFetch imFetch =
      errResp (upstreamFailMsg "Gemini API Error: " b) 1 0 none := by
  obtain ⟨rok, rbody⟩ := resp
  cases hok
  cases hb
  rw [handler_post_with_key key hkey gFetch imFetch]
  unfold handlerCore
  rw [withRetry_first_ok gFetch ⟨false, Except.ok b⟩ 1000 h0]
  rfl

/-- Witness for the amended C1 at the concrete non-2xx scenario. -/
theorem geminiNonOk_not_retried_witness :
    handler "POST" (some "key") nonOkGeminiFetch demoImagenFetch =
      errResp (upstreamFailMsg "Gemini API Error: "
        (Json.obj [("error", Json.obj [("message", Json.str "boom")])])) 1 0 none :=
  geminiNonOk_not_retried "key" (by decide) nonOkGeminiFetch demoImagenFetch
    ⟨false, Except.ok (Json.obj [("error", Json.obj [("message", Json.str "boom")])])⟩
    (Json.obj [("error", Json.obj [("message", Json.str "boom")])]) rfl rfl rfl

end Relay

namespace Relay

/-- Counterexample to claim C2: with the stage-1 text absent, the final
result's name is the hardcoded fallback "Il Creato Senza Nome" — not
"Unnamed Creation" as the claim states (the translation fallback
"The Unnamed Creation" does match). -/
theorem stage1Fallback_name_cex :
    (handler "POST" (some "key") emptyGeminiFetch demoImagenFetch).body =
      ResBody.ok (Json.str "Il Creato Senza Nome") (Json.str "The Unnamed Creation")
        "data:image/png;base64,AAAA" ∧
    "Il Creato Senza Nome" ≠ "Unnamed Creation" :=
  ⟨rfl, by decide⟩

/-- Claim C2 (amended): when the stage-1 text part is absent or not
valid JSON, the operation does not fail: it substitutes the fixed
fallbacks name = "Il Creato Senza Nome", translation = "The Unnamed
Creation" and the generic descriptive fallback imagePrompt, proceeds to
stage 2 with a prompt built from the fallback imagePrompt, and the
final 200 result carries the fallback name and translation. -/
theorem stage1Fallback_proceeds (key : String) (hkey : key ≠ "")
    (gFetch imFetch : Nat → Except String FetchResp) (gbody ibody bv : Json)
    (hg : (withRetry gFetch 3 1000).result = Except.ok (some ⟨true, Except.ok gbody⟩))
    (hparse : ∃ e, stage1Parse gbody = Except.error e)
    (hi : (withRetry imFetch 3 1000).result = Except.ok (some ⟨true, Except.ok ibody⟩))
    (hbytes : imageBytes ibody = Except.ok (some bv))
    (htruthy : jsTruthy (some bv) = true) :
    (handler "POST" (some key) gFetch imFetch).status = 200 ∧
    (handler "POST" (some key) gFetch imFetch).body =
      ResBody.ok (Json.str fallbackName) (Json.str fallbackTranslation)
        ("data:image/png;base64," ++ jsTemplate (some bv)) ∧
    (handler "POST" (some key) gFetch imFetch).imagenPrompt =
      some ("Highly cinematic, detailed, and artistic illustration of: " ++ fallbackImagePrompt ++
        ". Baroque style, golden ratio, dramatic lighting.") := by
  obtain ⟨e, he⟩ := hparse
  rw [handler_post_with_key key hkey gFetch imFetch]
  unfold handlerCore
  simp only [hg]
  simp only [stage1Fields, he]
  unfold afterStage1
  simp only [hi, hbytes, htruthy]
  exact ⟨rfl, rfl, rfl⟩

/-- Witness for the amended C2 at the concrete absent-text scenario. -/
theorem stage1Fallback_proceeds_witness :
    (handler "POST" (some "key") emptyGeminiFetch demoImagenFetch).body =
      ResBody.ok (Json.str fallbackName) (Json.str fallbackTranslation)
        ("data:image/png;base64," ++ jsTemplate (some (Json.str "AAAA"))) :=
  (stage1Fallback_proceeds "key" (by decide) emptyGeminiFetch demoImagenFetch
    (Json.obj []) demoImagenBody (Json.str "AAAA") rfl
    ⟨"Unexpected token in JSON", rfl⟩ rfl rfl rfl).2.1

/-- Claim C6: whenever stage 2 resolves 2xx but its first prediction
carries no `bytesBase64Encoded` field, the whole operation fails with
the distinct no-data error, whatever the stage-1 2xx body was (parsed
or fallback); there is no fallback image. -/
theorem imagenNoData_fails (key : String) (hkey : key ≠ "")
    (gFetch imFetch : Nat → Except String FetchResp) (gbody ibody : Json)
    (hg : (withRetry gFetch 3 1000).result = Except.ok (some ⟨true, Except.ok gbody⟩))
    (hi : (withRetry imFetch 3 1000).result = Except.ok (some ⟨true, Except.ok ibody⟩))
    (hbytes : imageBytes ibody = Except.ok none) :
    (handler "POST" (some key) gFetch imFetch).status = 500 ∧
    (handler "POST" (some key) gFetch imFetch).body =
      ResBody.err "Image generation failed to return data." := by
  rw [handler_post_with_key key hkey gFetch imFetch]
  unfold handlerCore
  simp only [hg]
  unfold afterStage1
  simp only [hi, hbytes]
  exact ⟨rfl, rfl⟩

/-- An Imagen fetch resolving 2xx whose single prediction lacks the
payload field. -/
def noDataImagenFetch : Nat → Except String FetchResp :=
  fun _ => Except.ok ⟨true, Except.ok (Json.obj [("predictions", Json.arr [Json.obj []])])⟩

/-- Witness for C6 at the concrete no-payload scenario. -/
theorem imagenNoData_fails_witness :
    (handler "POST" (some "key") emptyGeminiFetch noDataImagenFetch).status = 500 ∧
    (handler "POST" (some "key") emptyGeminiFetch noDataImagenFetch).body =
      ResBody.err "Image generation failed to return data." :=
  imagenNoData_fails "key" (by decide) emptyGeminiFetch noDataImagenFetch
    (Json.obj []) (Json.obj [("predictions", Json.arr [Json.obj []])]) rfl rfl rfl

end Relay

namespace Relay

/-- `v || d` is truthy whenever the default `d` is truthy. -/
theorem jsOr_truthy (v : Option Json) (d : Json) (hd : jsTruthy (some d) = true) :
    jsTruthy (some (jsOr v d)) = true := by
  unfold jsOr
  rcases hv : jsTruthy v with _ | _
  · simpa [hv] using hd
  · rcases v with _ | j
    · simp [jsTruthy] at hv
    · simp [hv]

/-- A Gemini 2xx body whose stage-1 text is the valid JSON object
assigning the number 42 to `italianName`. -/
def numericNameGeminiBody : Json := geminiBodyWithText "\x7b\"italianName\":42\x7d"

/-- Counterexample to claim C10: with a stage-1 text that is a valid
JSON object assigning the truthy number 42 to `italianName`, the
post-stage-1 name is the number 42 — kept as-is, not replaced and not a
string — so the three fields are not always non-empty strings. -/
theorem stage1_nonString_field_cex :
    (stage1Fields numericNameGeminiBody).1 = Json.num 42 0 ∧
    ∀ s : String, (stage1Fields numericNameGeminiBody).1 ≠ Json.str s :=
  ⟨rfl, fun _ h => Json.noConfusion
    ((show Json.num 42 0 = (stage1Fields numericNameGeminiBody).1 from rfl).trans h)⟩

/-- Claim C10 (amended): fallback substitution after stage 1 is
per-field, not all-or-nothing: when the stage-1 text parses as a JSON
object, each of the three fields keeps the parsed value exactly when it
is truthy and falls back to its hardcoded default otherwise; and after
stage 1 (on every path) all three fields are truthy JavaScript values —
non-empty strings whenever they are strings, but a truthy non-string
parsed value (such as a number) is kept as-is. -/
theorem stage1_per_field_fallback :
    (∀ (b : Json) (fs : List (String × Json)),
      stage1Parse b = Except.ok (Json.obj fs) →
      stage1Fields b =
        (jsOr (lookupField fs "italianName") (Json.str fallbackName),
         jsOr (lookupField fs "englishTranslation") (Json.str fallbackTranslation),
         jsOr (lookupField fs "imagePrompt") (Json.str fallbackImagePrompt))) ∧
    (∀ b : Json,
      jsTruthy (some (stage1Fields b).1) = true ∧
      jsTruthy (some (stage1Fields b).2.1) = true ∧
      jsTruthy (some (stage1Fields b).2.2) = true) := by
  constructor
  · intro b fs h
    simp only [stage1Fields, h]
    rfl
  · intro b
    unfold stage1Fields
    rcases h : stage1Parse b with e | p
    · exact ⟨rfl, rfl, rfl⟩
    · exact ⟨jsOr_truthy _ _ (by decide), jsOr_truthy _ _ (by decide), jsOr_truthy _ _ (by decide)⟩

/-- Witness for the amended C10 at the concrete numeric-field body. -/
theorem stage1_per_field_fallback_witness :
    stage1Fields numericNameGeminiBody =
      (jsOr (lookupField [("italianName", Json.num 42 0)] "italianName") (Json.str fallbackName),
       jsOr (lookupField [("italianName", Json.num 42 0)] "englishTranslation")
         (Json.str fallbackTranslation),
       jsOr (lookupField [("italianName", Json.num 42 0)] "imagePrompt")
         (Json.str fallbackImagePrompt)) :=
  stage1_per_field_fallback.1 numericNameGeminiBody [("italianName", Json.num 42 0)] rfl

end Relay

namespace Relay

/-- Every response produced by the outer catch is an error body with a
non-200 status. -/
theorem errResp_shape (m : String) (g i : Nat) (p : Option String) :
    ∃ msg, (errResp m g i p).body = ResBody.err msg ∧ (errResp m g i p).status ≠ 200 :=
  ⟨_, rfl, by simp [errResp]⟩

/-- Every outcome of the stage-2 phase is either an error body with a
non-200 status or a complete success triple with status 200. -/
theorem afterStage1_shape (gc : Nat) (nm tr fp : Json)
    (imFetch : Nat → Except String FetchResp) :
    (∃ m, (afterStage1 gc nm tr fp imFetch).body = ResBody.err m ∧
          (afterStage1 gc nm tr fp imFetch).status ≠ 200) ∨
    (∃ n t u, (afterStage1 gc nm tr fp imFetch).body = ResBody.ok n t u ∧
          (afterStage1 gc nm tr fp imFetch).status = 200) := by
  simp only [afterStage1]
  split
  · exact Or.inl (errResp_shape _ _ _ _)
  · exact Or.inl (errResp_shape _ _ _ _)
  · split
    · split
      · exact Or.inl (errResp_shape _ _ _ _)
      · split
        · exact Or.inl (errResp_shape _ _ _ _)
        · split
          · exact Or.inr ⟨_, _, _, rfl, rfl⟩
          · exact Or.inl (errResp_shape _ _ _ _)
    · split
      · exact Or.inl (errResp_shape _ _ _ _)
      · exact Or.inl (errResp_shape _ _ _ _)

/-- The stage-2 phase's status, and whether (and with which message)
its body is an error, do not depend on the stage-1 triple. -/
theorem afterStage1_stage1_opaque (gc : Nat) (nm tr fp nm2 tr2 fp2 : Json)
    (imFetch : Nat → Except String FetchResp) :
    (afterStage1 gc nm tr fp imFetch).status = (afterStage1 gc nm2 tr2 fp2 imFetch).status ∧
    ∀ m, ((afterStage1 gc nm tr fp imFetch).body = ResBody.err m ↔
          (afterStage1 gc nm2 tr2 fp2 imFetch).body = ResBody.err m) := by
  simp only [afterStage1]
  split
  · exact ⟨rfl, fun m => Iff.rfl⟩
  · exact ⟨rfl, fun m => Iff.rfl⟩
  · split
    · split
      · exact ⟨rfl, fun m => Iff.rfl⟩
      · split
        · exact ⟨rfl, fun m => Iff.rfl⟩
        · split
          · exact ⟨rfl, fun m => by simp⟩
          · exact ⟨rfl, fun m => Iff.rfl⟩
    · split
      · exact ⟨rfl, fun m => Iff.rfl⟩
      · exact ⟨rfl, fun m => Iff.rfl⟩

/-- Claim C8: every handler outcome is all-or-nothing — either an
error body `\x7b error: message \x7d` with a non-200 status (upstream
failures surface this way after retries), or a complete
name/translation/imageUrl triple with status 200; and the stage-2
phase's status and error body do not depend on the stage-1 triple, so
a stage-1 parse failure (which only changes that triple) can never
surface as an error or remove fields from a success. -/
theorem relay_all_or_nothing :
    (∀ (method : String) (apiKey : Option String)
        (gFetch imFetch : Nat → Except String FetchResp),
      (∃ m, (handler method apiKey gFetch imFetch).body = ResBody.err m ∧
            (handler method apiKey gFetch imFetch).status ≠ 200) ∨
      (∃ n t u, (handler method apiKey gFetch imFetch).body = ResBody.ok n t u ∧
            (handler method apiKey gFetch imFetch).status = 200)) ∧
    (∀ (gc : Nat) (nm tr fp nm2 tr2 fp2 : Json)
        (imFetch : Nat → Except String FetchResp),
      (afterStage1 gc nm tr fp imFetch).status = (afterStage1 gc nm2 tr2 fp2 imFetch).status ∧
      ∀ m, ((afterStage1 gc nm tr fp imFetch).body = ResBody.err m ↔
            (afterStage1 gc nm2 tr2 fp2 imFetch).body = ResBody.err m)) := by
  constructor
  · intro method apiKey gFetch imFetch
    unfold handler
    split
    · exact Or.inl ⟨"Method Not Allowed", rfl, by decide⟩
    · split
      · exact Or.inl ⟨"API key not configured.", rfl, by decide⟩
      · simp only [handlerCore]
        split
        · exact Or.inl (errResp_shape _ _ _ _)
        · exact Or.inl (errResp_shape _ _ _ _)
        · split
          · split
            · exact Or.inl (errResp_shape _ _ _ _)
            · exact afterStage1_shape _ _ _ _ _
          · split
            · exact Or.inl (errResp_shape _ _ _ _)
            · exact Or.inl (errResp_shape _ _ _ _)
  · exact afterStage1_stage1_opaque

end Relay
